import Mathlib

/-!
Verification of the calendar-bot core against its specification.

The JavaScript source is shallowly embedded as follows:
* timestamps are integers (milliseconds since the Unix epoch); a JS `Date`
  value is identified with its millisecond value, and `Math.floor (x / d)`
  for a positive divisor `d` is Euclidean division `x / d` on `Int`;
* `Array.prototype.sort` (stable since ES2019) is modelled by the stable
  insertion sort `sortCmp` parameterised by the numeric comparator;
* fallible code is modelled with `Except`; the effect of a handler on the
  remote provider or on the local SQLite mirror is returned explicitly
  (a decision value, the new mirror list, the id that was deleted, ...);
* SQLite TEXT comparison is byte-wise; it is modelled by lexicographic
  comparison of the character lists of the stored strings, and the TEXT
  produced by `Date.prototype.toISOString` and by SQLite `datetime('now')`
  is rendered by `toISOString` / `sqliteDatetimeNow` below (UTC).
-/

/-! ### Generic helpers -/

def msPerMin : Int := 60000

def msPerHour : Int := 3600000

def msPerDay : Int := 86400000

/-- Stable insertion of `x` into `l`: `x` is placed before the first element
`y` with `cmp y x > 0`, i.e. after every element that compares `≤ 0` against
it.  This is the behaviour of a stable comparator sort on the element order. -/
def insertCmp {α : Type} (cmp : α → α → Int) (x : α) : List α → List α
  | [] => [x]
  | y :: ys => if 0 < cmp y x then x :: y :: ys else y :: insertCmp cmp x ys

/-- Model of `Array.prototype.sort(cmp)` (stable per ES2019): stable
insertion sort driven by the JS comparator. -/
def sortCmp {α : Type} (cmp : α → α → Int) (l : List α) : List α :=
  l.foldl (fun acc x => insertCmp cmp x acc) []

def pad2 (n : Int) : String :=
  (if n < 10 then "0" else "") ++ toString n

def pad3 (n : Int) : String :=
  (if n < 10 then "00" else if n < 100 then "0" else "") ++ toString n

def pad4 (n : Int) : String :=
  (if n < 10 then "000" else if n < 100 then "00" else if n < 1000 then "0" else "") ++ toString n

/-- Civil date from a day count relative to 1970-01-01 (proleptic Gregorian,
the calendar used by JS `Date` / SQLite in UTC).  Returns (year, month, day). -/
def civilFromDays (z0 : Int) : Int × Int × Int :=
  let z := z0 + 719468
  let era := z / 146097
  let doe := z - era * 146097
  let yoe := (doe - doe / 1460 + doe / 36524 - doe / 146096) / 365
  let y := yoe + era * 400
  let doy := doe - (365 * yoe + yoe / 4 - yoe / 100)
  let mp := (5 * doy + 2) / 153
  let d := doy - (153 * mp + 2) / 5 + 1
  let m := mp + (if mp < 10 then 3 else (-9 : Int))
  (y + (if m ≤ 2 then 1 else 0), m, d)

def dateStr (t : Int) : String :=
  pad4 (civilFromDays (t / msPerDay)).1 ++ "-" ++
    pad2 (civilFromDays (t / msPerDay)).2.1 ++ "-" ++
    pad2 (civilFromDays (t / msPerDay)).2.2

def timeStrHMS (t : Int) : String :=
  pad2 (t % msPerDay / msPerHour) ++ ":" ++
    pad2 (t % msPerDay % msPerHour / msPerMin) ++ ":" ++
    pad2 (t % msPerDay % msPerMin / 1000)

/-- `Date.prototype.toISOString` of a millisecond timestamp, e.g.
`2024-01-16T10:00:00.000Z`. -/
def toISOString (t : Int) : String :=
  dateStr t ++ "T" ++ timeStrHMS t ++ "." ++ pad3 (t % 1000) ++ "Z"

/-- SQLite `datetime('now')` rendered at timestamp `t`, e.g.
`2024-01-16 10:00:00` (note the space separator and the absence of
milliseconds and of the `Z` suffix). -/
def sqliteDatetimeNow (t : Int) : String :=
  dateStr t ++ " " ++ timeStrHMS t

/-- Byte-wise (BINARY-collation) string comparison used by SQLite for TEXT. -/
def lexLtChars : List Char → List Char → Bool
  | [], [] => false
  | [], _ :: _ => true
  | _ :: _, [] => false
  | a :: as, b :: bs => if a < b then true else if b < a then false else lexLtChars as bs

def textLt (s t : String) : Bool := lexLtChars s.data t.data

/-- `needle` occurs at the head of `hay`. -/
def leadsChars : List Char → List Char → Bool
  | [], _ => true
  | _ :: _, [] => false
  | a :: as, b :: bs => a == b && leadsChars as bs

/-- `needle` occurs somewhere in `hay`. -/
def occursChars (needle : List Char) : List Char → Bool
  | [] => leadsChars needle []
  | b :: bs => leadsChars needle (b :: bs) || occursChars needle bs

/-- Model of JS `hay.includes(needle)` on strings. -/
def strIncludes (hay needle : String) : Bool := occursChars needle.data hay.data

def lowerStr (s : String) : String := String.mk (s.data.map Char.toLower)

/-- JS truthiness of an optional string value (absent and `""` are falsy). -/
def truthyStr : Option String → Bool
  | some s => !(s == "")
  | none => false

/-- JS `s || dflt` for an optional string argument. -/
def jsOrStr (o : Option String) (dflt : String) : String :=
  match o with
  | some s => if s == "" then dflt else s
  | none => dflt

/-- JS `s || null` for an optional string argument (empty string is falsy). -/
def jsOrNullStr (o : Option String) : Option String :=
  match o with
  | some s => if s == "" then none else some s
  | none => none

/-- JS `n || dflt` for an optional numeric argument (`0` is falsy). -/
def jsOrInt (o : Option Int) (dflt : Int) : Int :=
  match o with
  | some n => if n == 0 then dflt else n
  | none => dflt

/-- JS `l || []` for an optional array argument (an array is always truthy). -/
def jsOrList (o : Option (List String)) : List String := o.getD []

/-! ### SlotFinder: `findAvailableSlots` (src/services/functionExecutor.js) -/

/-- A busy interval `[start_time, end_time)` handed to the sweep
(`existingEvents` entries; the source keeps only records that carry both
endpoints, so every embedded event has both). -/
structure BusyEvent where
  startT : Int
  endT : Int
  deriving Repr, DecidableEq

/-- An emitted slot `{start, end, duration}`; `durMin` is the `duration`
field (minutes). -/
structure Slot where
  startT : Int
  stopT : Int
  durMin : Int
  deriving Repr, DecidableEq

/-- Comparator `(a, b) => new Date(a.start_time) - new Date(b.start_time)`. -/
def byStart (a b : BusyEvent) : Int := a.startT - b.startT

/-- One iteration of the sweep loop body: possibly emit a slot before the
event, then move the cursor past the event. -/
def sweepStep (d : Int) (acc : List Slot × Int) (ev : BusyEvent) : List Slot × Int :=
  ((if acc.2 < ev.startT ∧ d ≤ ev.startT - acc.2 then
      acc.1 ++ [⟨acc.2, min ev.startT (acc.2 + d), (min ev.startT (acc.2 + d) - acc.2) / msPerMin⟩]
    else acc.1),
   max acc.2 ev.endT)

/-- The post-loop check for a slot between the final cursor and `endTime`. -/
def sweepTail (d endTime : Int) (p : List Slot × Int) : List Slot :=
  if p.2 < endTime ∧ d ≤ endTime - p.2 then
    p.1 ++ [⟨p.2, min endTime (p.2 + d), (min endTime (p.2 + d) - p.2) / msPerMin⟩]
  else p.1

/-- The sweep of `findAvailableSlots` before the preferred-time reordering:
sort busy events by start, walk them moving a cursor, emit the slots. -/
def sweepSlots (startTime endTime : Int) (events : List BusyEvent) (durationMinutes : Int) : List Slot :=
  sweepTail (durationMinutes * msPerMin) endTime
    ((sortCmp byStart events).foldl (sweepStep (durationMinutes * msPerMin)) ([], startTime))

/-- `new Date(x).toTimeString().slice(0, 5)`: the wall-clock `HH:MM` of a
timestamp (rendered in UTC in this embedding). -/
def timeOfDayStr (t : Int) : String :=
  pad2 (t % msPerDay / msPerHour) ++ ":" ++ pad2 (t % msPerDay % msPerHour / msPerMin)

def prefMatch (preferredTimes : List String) (s : Slot) : Bool :=
  preferredTimes.contains (timeOfDayStr s.startT)

/-- The comparator used to prioritise preferred start times. -/
def prefCmp (preferredTimes : List String) (a b : Slot) : Int :=
  if prefMatch preferredTimes a && !(prefMatch preferredTimes b) then -1
  else if !(prefMatch preferredTimes a) && prefMatch preferredTimes b then 1
  else 0

/-- `findAvailableSlots(startTime, endTime, existingEvents, durationMinutes,
preferredTimes)`. -/
def findAvailableSlots (startTime endTime : Int) (events : List BusyEvent)
    (durationMinutes : Int) (preferredTimes : List String) : List Slot :=
  if 0 < preferredTimes.length then
    sortCmp (prefCmp preferredTimes) (sweepSlots startTime endTime events durationMinutes)
  else
    sweepSlots startTime endTime events durationMinutes

/-! ### GeminiService: tool catalogue and `validateFunctionCall`
(src/services/geminiService.js) -/

/-- The six function declarations registered with the model
(`initializeToolDefinitions`). -/
def toolCatalogue : List String :=
  ["create_calendar_event", "get_calendar_events", "update_calendar_event",
   "delete_calendar_event", "search_calendar_events", "get_time_suggestions"]

def timeRangeEnum : List String := ["today", "tomorrow", "this_week", "this_month", "all"]

/-- The raw argument bag of a function call (absent keys are `none`). -/
structure ArgBag where
  title : Option String := none
  description : Option String := none
  startDateTime : Option String := none
  endDateTime : Option String := none
  location : Option String := none
  attendees : Option (List String) := none
  reminderMinutes : Option Int := none
  startDate : Option String := none
  endDate : Option String := none
  query : Option String := none
  eventId : Option String := none
  searchTitle : Option String := none
  timeRange : Option String := none
  date : Option String := none
  duration : Option Int := none
  preferredTimes : Option (List String) := none
  deriving Repr, DecidableEq

structure FnCall where
  name : String
  args : ArgBag
  deriving Repr, DecidableEq

def reqStr1 : Option String → Bool
  | some s => decide (1 ≤ s.length)
  | none => false

def reqFmt (fmt : String → Bool) : Option String → Bool
  | some s => fmt s
  | none => false

def optFmt (fmt : String → Bool) : Option String → Bool
  | some s => fmt s
  | none => true

def optAll (p : String → Bool) : Option (List String) → Bool
  | some l => l.all p
  | none => true

def optPos : Option Int → Bool
  | some n => decide (0 < n)
  | none => true

/-- `validateFunctionCall`: the zod schema map has entries for five of the
six catalogued functions; any other name (including the catalogued
`get_time_suggestions`) falls in the `Unknown function` branch.  The zod
primitive format checks `z.string().datetime()` and `z.string().email()`
are the parameters `dtOk` and `emOk`. -/
def validateFunctionCall (dtOk emOk : String → Bool) (fc : FnCall) : Except String ArgBag :=
  if fc.name == "create_calendar_event" then
    if reqStr1 fc.args.title && reqFmt dtOk fc.args.startDateTime &&
        reqFmt dtOk fc.args.endDateTime && optAll emOk fc.args.attendees &&
        optPos fc.args.reminderMinutes then
      Except.ok fc.args
    else Except.error ("Invalid parameters for " ++ fc.name)
  else if fc.name == "get_calendar_events" then
    if reqFmt dtOk fc.args.startDate && reqFmt dtOk fc.args.endDate then Except.ok fc.args
    else Except.error ("Invalid parameters for " ++ fc.name)
  else if fc.name == "update_calendar_event" then
    if reqStr1 fc.args.eventId && optFmt dtOk fc.args.startDateTime &&
        optFmt dtOk fc.args.endDateTime then
      Except.ok fc.args
    else Except.error ("Invalid parameters for " ++ fc.name)
  else if fc.name == "delete_calendar_event" then
    if truthyStr fc.args.eventId || truthyStr fc.args.searchTitle then Except.ok fc.args
    else Except.error ("Invalid parameters for " ++ fc.name)
  else if fc.name == "search_calendar_events" then
    if reqStr1 fc.args.query &&
        (match fc.args.timeRange with
         | none => true
         | some tr => timeRangeEnum.contains tr) then
      Except.ok fc.args
    else Except.error ("Invalid parameters for " ++ fc.name)
  else Except.error ("Unknown function: " ++ fc.name)

/-! ### FunctionExecutor: `executeFunctionCall` and the per-kind handlers
(src/services/functionExecutor.js, with the mirror and remote effects of
src CalendarService made explicit) -/

/-- The shape of a handler result relevant to error propagation: the
`success` flag, the `error` message and the `function` correlation field. -/
structure ExecResult where
  success : Bool
  error : Option String := none
  fnField : Option String := none
  deriving Repr, DecidableEq

/-- The six handler methods of `FunctionExecutor`, each of which may raise
(`Except.error` is a thrown JS exception escaping the handler). -/
structure Handlers where
  createH : ArgBag → Except String ExecResult
  getH : ArgBag → Except String ExecResult
  updateH : ArgBag → Except String ExecResult
  deleteH : ArgBag → Except String ExecResult
  searchH : ArgBag → Except String ExecResult
  suggestH : ArgBag → Except String ExecResult

/-- The `switch (functionCall.name)` dispatch inside the `try` block;
the `default` branch throws `Unknown function: ...`. -/
def dispatchRaw (h : Handlers) (fc : FnCall) : Except String ExecResult :=
  if fc.name == "create_calendar_event" then h.createH fc.args
  else if fc.name == "get_calendar_events" then h.getH fc.args
  else if fc.name == "update_calendar_event" then h.updateH fc.args
  else if fc.name == "delete_calendar_event" then h.deleteH fc.args
  else if fc.name == "search_calendar_events" then h.searchH fc.args
  else if fc.name == "get_time_suggestions" then h.suggestH fc.args
  else Except.error ("Unknown function: " ++ fc.name)

/-- `executeFunctionCall`: the surrounding `try/catch` turns any thrown
error into a `{success: false, error, function}` result object. -/
def executeFunctionCall (h : Handlers) (fc : FnCall) : ExecResult :=
  match dispatchRaw h fc with
  | Except.ok r => r
  | Except.error e => { success := false, error := some e, fnField := some fc.name }

/-! #### `createCalendarEvent` -/

/-- Arguments of `createCalendarEvent` after `new Date(...)` parsing of the
two datetime strings. -/
structure CreateArgs where
  title : String
  description : Option String := none
  startTime : Int
  endTime : Int
  location : Option String := none
  attendees : Option (List String) := none
  reminderMinutes : Option Int := none

structure EventData where
  title : String
  description : String
  startTime : Int
  endTime : Int
  location : Option String
  attendees : List String
  reminderMinutes : Int
  deriving Repr, DecidableEq

/-- The `eventData` object assembled at the top of `createCalendarEvent`. -/
def mkEventData (a : CreateArgs) : EventData :=
  { title := a.title
    description := jsOrStr a.description ""
    startTime := a.startTime
    endTime := a.endTime
    location := jsOrNullStr a.location
    attendees := jsOrList a.attendees
    reminderMinutes := jsOrInt a.reminderMinutes 15 }

/-- Either a local rejection (thrown then caught as a failure result), or
the call to `calendarService.createEvent` with the assembled payload. -/
inductive CreateDecision where
  | rejected (msg : String)
  | remoteCreate (payload : EventData)
  deriving Repr, DecidableEq

/-- `createCalendarEvent(args, user)` up to the remote call: the two date
validations run before `calendarService.createEvent` is reached. -/
def createCalendarEvent (a : CreateArgs) (now : Int) : CreateDecision :=
  if (mkEventData a).endTime ≤ (mkEventData a).startTime then
    CreateDecision.rejected "Start time must be before end time"
  else if (mkEventData a).startTime < now then
    CreateDecision.rejected "Cannot create events in the past"
  else
    CreateDecision.remoteCreate (mkEventData a)

/-! #### `updateCalendarEvent` (and `CalendarService.updateEvent`) -/

/-- Arguments of `updateCalendarEvent`; the two datetime strings are already
parsed to timestamps, with `none` for an absent (or empty, hence falsy)
value. -/
structure UpdateArgs where
  eventId : String
  title : Option String := none
  startDateTime : Option Int := none
  endDateTime : Option Int := none
  location : Option String := none

/-- The partial `updates` object assembled by `updateCalendarEvent`. -/
structure EventUpdates where
  title : Option String
  description : Option String
  startTime : Option Int
  endTime : Option Int
  location : Option String
  deriving Repr, DecidableEq

def mkUpdates (a : UpdateArgs) : EventUpdates :=
  { title := match a.title with
      | some s => if s == "" then none else some s
      | none => none
    description := none
    startTime := a.startDateTime
    endTime := a.endDateTime
    location := a.location }

/-- The remote Google event resource (the fields `CalendarService.updateEvent`
reads or writes, plus `attendees` as a representative untouched field). -/
structure RemoteEvent where
  summary : String
  description : String
  location : Option String
  startDT : Int
  endDT : Int
  attendees : List String
  deriving Repr, DecidableEq

/-- `CalendarService.updateEvent`: copy of the fetched event with exactly the
supplied fields overridden, sent to `calendar.events.update`. -/
def applyRemoteUpdates (ex : RemoteEvent) (u : EventUpdates) : RemoteEvent :=
  { summary := u.title.getD ex.summary
    description := u.description.getD ex.description
    location := match u.location with
      | some l => some l
      | none => ex.location
    startDT := u.startTime.getD ex.startDT
    endDT := u.endTime.getD ex.endDT
    attendees := ex.attendees }

/-- A row of the local `calendar_events` mirror table (the data-model fields;
the bookkeeping `created_at`/`updated_at` timestamps are not part of the
mirrored event data). -/
structure MirrorRow where
  userId : Int
  googleEventId : String
  title : String
  description : Option String
  startT : Int
  endT : Int
  location : Option String
  attendees : List String
  reminderMinutes : Int
  deriving Repr, DecidableEq

/-- The local `UPDATE calendar_events SET ... WHERE user_id = ? AND
google_event_id = ?` of `CalendarService.updateEvent`: only title,
start_time and end_time are ever in the SET list. -/
def applyMirrorUpdate (uid : Int) (eid : String) (u : EventUpdates) (row : MirrorRow) : MirrorRow :=
  if row.userId == uid && row.googleEventId == eid then
    { row with
      title := u.title.getD row.title
      startT := u.startTime.getD row.startT
      endT := u.endTime.getD row.endT }
  else row

def mirrorAfterUpdate (uid : Int) (eid : String) (u : EventUpdates) (mirror : List MirrorRow) : List MirrorRow :=
  mirror.map (applyMirrorUpdate uid eid u)

/-- `updates.startTime && updates.endTime && updates.startTime >= updates.endTime`. -/
def startNotBeforeEnd (u : EventUpdates) : Bool :=
  match u.startTime, u.endTime with
  | some s, some e => decide (e ≤ s)
  | _, _ => false

inductive UpdateDecision where
  | rejected (msg : String)
  | performed (remote : RemoteEvent) (mirror : List MirrorRow)
  deriving Repr, DecidableEq

/-- `updateCalendarEvent(args, user)`: validate the supplied dates, then
perform the remote update and the mirror update.  `existing` is the event
fetched from the remote provider, `mirror` the local table. -/
def updateCalendarEvent (a : UpdateArgs) (uid : Int) (existing : RemoteEvent)
    (mirror : List MirrorRow) : UpdateDecision :=
  if startNotBeforeEnd (mkUpdates a) then
    UpdateDecision.rejected "Start time must be before end time"
  else
    UpdateDecision.performed (applyRemoteUpdates existing (mkUpdates a))
      (mirrorAfterUpdate uid a.eventId (mkUpdates a) mirror)

/-! #### `deleteCalendarEvent` (and `CalendarService.deleteEvent` /
`findEventsByTitle`) -/

structure DelArgs where
  eventId : Option String := none
  searchTitle : Option String := none

/-- An event as returned by `CalendarService.getEvents` (mapped from the
remote provider's list response). -/
structure FetchedEvent where
  id : String
  title : String
  startS : String
  deriving Repr, DecidableEq

/-- One disambiguation candidate `{id, title, start}`. -/
structure Candidate where
  id : String
  title : String
  start : String
  deriving Repr, DecidableEq

structure DeleteResultR where
  success : Bool
  error : Option String := none
  eventsField : Option (List Candidate) := none
  eventIdField : Option String := none
  fnField : Option String := none
  deriving Repr, DecidableEq

/-- `CalendarService.findEventsByTitle`: case-insensitive substring filter
over the fetched events. -/
def findEventsByTitle (fetched : List FetchedEvent) (title : String) : List FetchedEvent :=
  fetched.filter (fun e => strIncludes (lowerStr e.title) (lowerStr title))

/-- The local effect of `CalendarService.deleteEvent`:
`DELETE FROM calendar_events WHERE user_id = ? AND google_event_id = ?`. -/
def mirrorDelete (uid : Int) (eid : String) (mirror : List MirrorRow) : List MirrorRow :=
  mirror.filter (fun r => !(r.userId == uid && r.googleEventId == eid))

/-- The title-search phase of `deleteCalendarEvent`: either an early failure
result (no match thrown and caught, or the ambiguous-match return), or the
event id to delete (unchanged from the args when the search is skipped). -/
def delSearchPhase (a : DelArgs) (fetched : List FetchedEvent) : Except DeleteResultR (Option String) :=
  if !(truthyStr a.eventId) && truthyStr a.searchTitle then
    match a.searchTitle with
    | some st =>
      if (findEventsByTitle fetched st).length = 0 then
        Except.error
          { success := false
            error := some ("No events found with title containing \"" ++ st ++ "\"")
            fnField := some "delete_calendar_event" }
      else if 1 < (findEventsByTitle fetched st).length then
        Except.error
          { success := false
            error := some ("Multiple events found with \"" ++ st ++ "\". Please be more specific.")
            eventsField := some ((findEventsByTitle fetched st).map fun e => ⟨e.id, e.title, e.startS⟩)
            fnField := some "delete_calendar_event" }
      else
        Except.ok ((findEventsByTitle fetched st).head?.map fun e => e.id)
    | none => Except.ok a.eventId
  else Except.ok a.eventId

/-- `deleteCalendarEvent(args, user)`: returns the result object, the mirror
table after the call, and the id deleted on the remote provider (if any). -/
def deleteCalendarEvent (a : DelArgs) (uid : Int) (fetched : List FetchedEvent)
    (mirror : List MirrorRow) : DeleteResultR × List MirrorRow × Option String :=
  match delSearchPhase a fetched with
  | Except.error r => (r, mirror, none)
  | Except.ok eidOpt =>
    match eidOpt with
    | some eid =>
      if eid == "" then
        ({ success := false, error := some "Event ID or search title is required",
           fnField := some "delete_calendar_event" }, mirror, none)
      else
        ({ success := true, eventIdField := some eid }, mirrorDelete uid eid mirror, some eid)
    | none =>
      ({ success := false, error := some "Event ID or search title is required",
         fnField := some "delete_calendar_event" }, mirror, none)

/-! ### MessageHandler: auth gating of the function-call loop
(`handleNaturalLanguageMessage`, `requiresAuth`) -/

structure WaUser where
  id : Int
  authStatus : String
  deriving Repr, DecidableEq

/-- `requiresAuth(functionName)`. -/
def requiresAuth (functionName : String) : Bool :=
  ["create_calendar_event", "get_calendar_events", "update_calendar_event",
   "delete_calendar_event", "search_calendar_events", "get_time_suggestions"].contains functionName

/-- Outcome of one iteration of the function-call loop: the auth-gate
failure result, a failure result from the per-call `catch`, or the result
of `executeFunctionCall`. -/
inductive CallOutcome where
  | authRequired (fnName msg : String)
  | callFailed (fnName msg : String)
  | executed (r : ExecResult)
  deriving Repr, DecidableEq

/-- One iteration of the loop in `handleNaturalLanguageMessage`: auth gate
first, then parameter validation, then execution.  The executor is a
parameter so that its non-invocation on the gated path is expressible. -/
def processOneCall (dtOk emOk : String → Bool) (exec : String → ArgBag → ExecResult)
    (u : WaUser) (fc : FnCall) : CallOutcome :=
  if requiresAuth fc.name && !(u.authStatus == "authenticated") then
    CallOutcome.authRequired fc.name
      "Authentication required. Please use /auth to connect your Google Calendar."
  else
    match validateFunctionCall dtOk emOk fc with
    | Except.error msg => CallOutcome.callFailed fc.name msg
    | Except.ok args => CallOutcome.executed (exec fc.name args)

/-- The whole `for (const functionCall of geminiResponse.functionCalls)`
loop: each call is processed independently. -/
def processFunctionCalls (dtOk emOk : String → Bool) (exec : String → ArgBag → ExecResult)
    (u : WaUser) (calls : List FnCall) : List CallOutcome :=
  calls.map (processOneCall dtOk emOk exec u)

/-! ### Database sessions (`createSession`, `getActiveSession`,
`updateSessionActivity`) -/

/-- A row of the `sessions` table.  `created_at`, `expires_at` and
`last_activity` are TEXT: `expires_at` is written by the application as an
ISO string (`Date.prototype.toISOString`), the other two by SQLite
`CURRENT_TIMESTAMP`. -/
structure SessionRow where
  id : String
  userId : Int
  phoneNumber : String
  status : String
  createdAt : String
  expiresAt : String
  lastActivity : String
  deriving Repr, DecidableEq

/-- The session row created by `getOrCreateSession` at time `nowMs`:
`expiresAt = new Date(Date.now() + 24*60*60*1000).toISOString()`. -/
def mkSessionRow (sid : String) (uid : Int) (phone : String) (nowMs : Int) : SessionRow :=
  { id := sid
    userId := uid
    phoneNumber := phone
    status := "active"
    createdAt := sqliteDatetimeNow nowMs
    expiresAt := toISOString (nowMs + 24 * 60 * 60 * 1000)
    lastActivity := sqliteDatetimeNow nowMs }

/-- `getActiveSession`: `SELECT * FROM sessions WHERE phone_number = ? AND
status = 'active' AND expires_at > datetime('now') ORDER BY created_at DESC
LIMIT 1`.  The TEXT comparison `expires_at > datetime('now')` is byte-wise. -/
def getActiveSession (phone : String) (nowMs : Int) (store : List SessionRow) : Option SessionRow :=
  (sortCmp
      (fun a b : SessionRow =>
        if textLt a.createdAt b.createdAt then 1
        else if textLt b.createdAt a.createdAt then -1
        else 0)
      (store.filter fun s =>
        s.phoneNumber == phone && s.status == "active" &&
          textLt (sqliteDatetimeNow nowMs) s.expiresAt)).head?

/-- `updateSessionActivity`: `UPDATE sessions SET last_activity =
CURRENT_TIMESTAMP WHERE id = ?`. -/
def updateSessionActivity (store : List SessionRow) (sid : String) (nowMs : Int) : List SessionRow :=
  store.map fun s => if s.id == sid then { s with lastActivity := sqliteDatetimeNow nowMs } else s

/-! ### Concrete fixtures used by witnesses -/

def okResult : ExecResult := { success := true }

/-- A handler set whose delete handler throws. -/
def handlersBoom : Handlers :=
  { createH := fun _ => Except.ok okResult
    getH := fun _ => Except.ok okResult
    updateH := fun _ => Except.ok okResult
    deleteH := fun _ => Except.error "boom"
    searchH := fun _ => Except.ok okResult
    suggestH := fun _ => Except.ok okResult }

def bag0 : ArgBag := {}

def ex0 : RemoteEvent :=
  { summary := "s", description := "d", location := some "L",
    startDT := 10, endDT := 20, attendees := ["x@y.z"] }

def row0 : MirrorRow :=
  { userId := 7, googleEventId := "E1", title := "t", description := some "d",
    startT := 10, endT := 20, location := some "L", attendees := [], reminderMinutes := 15 }

def updArgsBad : UpdateArgs := { eventId := "E1", startDateTime := some 100, endDateTime := some 50 }

def updArgsPart : UpdateArgs := { eventId := "E1", title := some "New", startDateTime := some 100 }

def aDel : DelArgs := { searchTitle := some "team" }

def fe1 : FetchedEvent := { id := "id1", title := "Team sync", startS := "2024-01-15T10:00:00Z" }

def fe2 : FetchedEvent := { id := "id2", title := "Team lunch", startS := "2024-01-15T13:00:00Z" }

def rowTeam : MirrorRow :=
  { userId := 7, googleEventId := "id1", title := "Team sync", description := none,
    startT := 0, endT := 1, location := none, attendees := [], reminderMinutes := 15 }

/-! ## Lemmas about the stable sort -/

theorem mem_insertCmp {α : Type} (cmp : α → α → Int) (x a : α) (l : List α) :
    a ∈ insertCmp cmp x l ↔ a = x ∨ a ∈ l := by
  induction l with
  | nil => simp [insertCmp]
  | cons y ys ih =>
    simp only [insertCmp]
    by_cases hc : 0 < cmp y x
    · rw [if_pos hc]
      simp [List.mem_cons]
      try tauto
    · rw [if_neg hc]
      simp [List.mem_cons, ih]
      try tauto

theorem mem_sortCmp_fold {α : Type} (cmp : α → α → Int) (l : List α) :
    ∀ (acc : List α) (a : α),
      (a ∈ l.foldl (fun acc x => insertCmp cmp x acc) acc ↔ a ∈ acc ∨ a ∈ l) := by
  induction l with
  | nil => intro acc a; simp
  | cons x xs ih =>
    intro acc a
    simp only [List.foldl_cons]
    rw [ih (insertCmp cmp x acc) a, mem_insertCmp]
    simp [List.mem_cons]
    try tauto

theorem mem_sortCmp {α : Type} (cmp : α → α → Int) (l : List α) (a : α) :
    a ∈ sortCmp cmp l ↔ a ∈ l := by
  rw [sortCmp, mem_sortCmp_fold]
  simp

theorem insertCmp_byStart_pairwise (x : BusyEvent) (l : List BusyEvent)
    (h : l.Pairwise fun a b => a.startT ≤ b.startT) :
    (insertCmp byStart x l).Pairwise fun a b => a.startT ≤ b.startT := by
  induction l with
  | nil => simp [insertCmp]
  | cons y ys ih =>
    rcases List.pairwise_cons.mp h with ⟨hy, hys⟩
    simp only [insertCmp]
    by_cases hc : 0 < byStart y x
    · rw [if_pos hc]
      have hxy : x.startT ≤ y.startT := by unfold byStart at hc; omega
      refine List.pairwise_cons.mpr ⟨?_, h⟩
      intro z hz
      rcases List.mem_cons.mp hz with rfl | hz
      · exact hxy
      · exact le_trans hxy (hy z hz)
    · rw [if_neg hc]
      refine List.pairwise_cons.mpr ⟨?_, ih hys⟩
      intro z hz
      rcases (mem_insertCmp byStart x z ys).mp hz with rfl | hz
      · unfold byStart at hc; omega
      · exact hy z hz

theorem sortCmp_byStart_pairwise (l : List BusyEvent) :
    (sortCmp byStart l).Pairwise fun a b => a.startT ≤ b.startT := by
  have key : ∀ (l acc : List BusyEvent), (acc.Pairwise fun a b => a.startT ≤ b.startT) →
      ((l.foldl (fun acc x => insertCmp byStart x acc) acc).Pairwise
        fun a b => a.startT ≤ b.startT) := by
    intro l
    induction l with
    | nil => intro acc h; simpa using h
    | cons x xs ih =>
      intro acc h
      simp only [List.foldl_cons]
      exact ih (insertCmp byStart x acc) (insertCmp_byStart_pairwise x acc h)
  exact key l [] (by simp)

/-! ## Lemmas about the sweep -/

/-- Every slot the sweep loop adds (on top of an accumulator with the same
property) spans exactly the requested duration and reports exactly the
requested minute count. -/
theorem sweepFold_shape (dm : Int) :
    ∀ (l : List BusyEvent) (acc : List Slot × Int),
      (∀ s ∈ acc.1, s.stopT = s.startT + dm * msPerMin ∧ s.durMin = dm) →
      ∀ s ∈ (l.foldl (sweepStep (dm * msPerMin)) acc).1,
        s.stopT = s.startT + dm * msPerMin ∧ s.durMin = dm := by
  intro l
  induction l with
  | nil => intro acc h; exact h
  | cons ev evs ih =>
    intro acc h
    simp only [List.foldl_cons]
    refine ih (sweepStep (dm * msPerMin) acc ev) ?_
    intro s hs
    simp only [sweepStep] at hs
    by_cases hc : acc.2 < ev.startT ∧ dm * msPerMin ≤ ev.startT - acc.2
    · rw [if_pos hc] at hs
      rcases List.mem_append.mp hs with hs | hs
      · exact h s hs
      · simp only [List.mem_singleton] at hs
        subst hs
        have hmin : min ev.startT (acc.2 + dm * msPerMin) = acc.2 + dm * msPerMin :=
          min_eq_right (by omega)
        constructor
        · simp [hmin]
        · simp only [hmin]
          show (acc.2 + dm * msPerMin - acc.2) / msPerMin = dm
          have h60 : msPerMin = 60000 := rfl
          rw [h60] at *
          omega
    · rw [if_neg hc] at hs
      exact h s hs

theorem sweepSlots_shape (st et dm : Int) (evs : List BusyEvent) :
    ∀ s ∈ sweepSlots st et evs dm, s.stopT = s.startT + dm * msPerMin ∧ s.durMin = dm := by
  intro s hs
  unfold sweepSlots sweepTail at hs
  have hloop := sweepFold_shape dm (sortCmp byStart evs) ([], st) (by simp)
  by_cases hc :
      ((sortCmp byStart evs).foldl (sweepStep (dm * msPerMin)) ([], st)).2 < et ∧
        dm * msPerMin ≤ et - ((sortCmp byStart evs).foldl (sweepStep (dm * msPerMin)) ([], st)).2
  · rw [if_pos hc] at hs
    rcases List.mem_append.mp hs with hs | hs
    · exact hloop s hs
    · simp only [List.mem_singleton] at hs
      subst hs
      have hmin :
          min et (((sortCmp byStart evs).foldl (sweepStep (dm * msPerMin)) ([], st)).2 + dm * msPerMin)
            = ((sortCmp byStart evs).foldl (sweepStep (dm * msPerMin)) ([], st)).2 + dm * msPerMin :=
        min_eq_right (by omega)
      constructor
      · simp [hmin]
      · simp only [hmin]
        show (((sortCmp byStart evs).foldl (sweepStep (dm * msPerMin)) ([], st)).2 + dm * msPerMin -
            ((sortCmp byStart evs).foldl (sweepStep (dm * msPerMin)) ([], st)).2) / msPerMin = dm
        have h60 : msPerMin = 60000 := rfl
        rw [h60] at *
        omega
  · rw [if_neg hc] at hs
    exact hloop s hs

/-- Master invariant of the sweep loop: slots produced over a start-sorted
remainder are positionally disjoint from every remaining event, every
processed event ends at or before the final cursor, the cursor is
monotone, and every new slot starts at or after the entry cursor. -/
theorem sweepFold_disjoint (d : Int) :
    ∀ (l : List BusyEvent) (slots : List Slot) (cur : Int),
      (l.Pairwise fun a b => a.startT ≤ b.startT) →
      (∀ s ∈ slots, ∀ ev ∈ l, s.stopT ≤ ev.startT) →
      (∀ s ∈ (l.foldl (sweepStep d) (slots, cur)).1, ∀ ev ∈ l,
          s.stopT ≤ ev.startT ∨ ev.endT ≤ s.startT)
      ∧ (∀ ev ∈ l, ev.endT ≤ (l.foldl (sweepStep d) (slots, cur)).2)
      ∧ cur ≤ (l.foldl (sweepStep d) (slots, cur)).2
      ∧ (∀ s ∈ (l.foldl (sweepStep d) (slots, cur)).1, s ∈ slots ∨ cur ≤ s.startT) := by
  intro l
  induction l with
  | nil =>
    intro slots cur _ _
    refine ⟨by simp, by simp, le_refl _, ?_⟩
    intro s hs
    exact Or.inl (by simpa using hs)
  | cons ev evs ih =>
    intro slots cur hsort hprev
    rcases List.pairwise_cons.mp hsort with ⟨hev, htail⟩
    have hsnd : (sweepStep d (slots, cur) ev).2 = max cur ev.endT := rfl
    have hstep : (sweepStep d (slots, cur) ev).1 =
        (if cur < ev.startT ∧ d ≤ ev.startT - cur then
          slots ++ [⟨cur, min ev.startT (cur + d), (min ev.startT (cur + d) - cur) / msPerMin⟩]
        else slots) := rfl
    have hmem_step : ∀ s ∈ (sweepStep d (slots, cur) ev).1,
        s ∈ slots ∨ (s.startT = cur ∧ s.stopT ≤ ev.startT) := by
      intro s hs
      rw [hstep] at hs
      by_cases hc : cur < ev.startT ∧ d ≤ ev.startT - cur
      · rw [if_pos hc] at hs
        rcases List.mem_append.mp hs with hs | hs
        · exact Or.inl hs
        · simp only [List.mem_singleton] at hs
          subst hs
          exact Or.inr ⟨rfl, min_le_left _ _⟩
      · rw [if_neg hc] at hs
        exact Or.inl hs
    have hprev' : ∀ s ∈ (sweepStep d (slots, cur) ev).1, ∀ ev2 ∈ evs, s.stopT ≤ ev2.startT := by
      intro s hs ev2 hev2
      rcases hmem_step s hs with h | ⟨_, h⟩
      · exact hprev s h ev2 (List.mem_cons_of_mem _ hev2)
      · exact le_trans h (hev ev2 hev2)
    obtain ⟨IH1, IH2, IH3, IH4⟩ :=
      ih (sweepStep d (slots, cur) ev).1 (sweepStep d (slots, cur) ev).2 htail hprev'
    rw [List.foldl_cons]
    refine ⟨?_, ?_, ?_, ?_⟩
    · intro s hs ev2 hev2
      rcases List.mem_cons.mp hev2 with rfl | hev2'
      · rcases IH4 s hs with hs' | hge
        · rcases hmem_step s hs' with hsl | ⟨_, hle⟩
          · exact Or.inl (hprev s hsl ev2 (List.mem_cons_self _ _))
          · exact Or.inl hle
        · refine Or.inr (le_trans ?_ hge)
          rw [hsnd]
          exact le_max_right _ _
      · exact IH1 s hs ev2 hev2'
    · intro ev2 hev2
      rcases List.mem_cons.mp hev2 with rfl | hev2'
      · refine le_trans ?_ IH3
        rw [hsnd]
        exact le_max_right _ _
      · exact IH2 ev2 hev2'
    · refine le_trans ?_ IH3
      rw [hsnd]
      exact le_max_left _ _
    · intro s hs
      rcases IH4 s hs with hs' | hge
      · rcases hmem_step s hs' with hsl | ⟨heq, _⟩
        · exact Or.inl hsl
        · exact Or.inr (le_of_eq heq.symm)
      · refine Or.inr (le_trans ?_ hge)
        rw [hsnd]
        exact le_max_left _ _

/-- Every swept slot is positionally disjoint from every input busy
interval. -/
theorem sweepSlots_disjoint (st et dm : Int) (evs : List BusyEvent) :
    ∀ s ∈ sweepSlots st et evs dm, ∀ ev ∈ evs,
      s.stopT ≤ ev.startT ∨ ev.endT ≤ s.startT := by
  intro s hs ev hev
  have hev' : ev ∈ sortCmp byStart evs := (mem_sortCmp byStart evs ev).mpr hev
  obtain ⟨H1, H2, H3, H4⟩ :=
    sweepFold_disjoint (dm * msPerMin) (sortCmp byStart evs) [] st
      (sortCmp_byStart_pairwise evs) (by simp)
  unfold sweepSlots sweepTail at hs
  by_cases hc : ((sortCmp byStart evs).foldl (sweepStep (dm * msPerMin)) ([], st)).2 < et ∧
      dm * msPerMin ≤ et - ((sortCmp byStart evs).foldl (sweepStep (dm * msPerMin)) ([], st)).2
  · rw [if_pos hc] at hs
    rcases List.mem_append.mp hs with hs | hs
    · exact H1 s hs ev hev'
    · simp only [List.mem_singleton] at hs
      subst hs
      exact Or.inr (H2 ev hev')
  · rw [if_neg hc] at hs
    exact H1 s hs ev hev'

/-! ## The preferred-time comparator sorts into a stable partition -/

theorem insertCmp_prefCmp (prefs : List String) (x : Slot) (F G : List Slot)
    (hF : ∀ y ∈ F, prefMatch prefs y = true) (hG : ∀ y ∈ G, prefMatch prefs y = false) :
    insertCmp (prefCmp prefs) x (F ++ G) =
      if prefMatch prefs x then F ++ x :: G else F ++ (G ++ [x]) := by
  induction F with
  | nil =>
    simp only [List.nil_append]
    induction G with
    | nil =>
      simp only [insertCmp]
      by_cases hx : prefMatch prefs x = true
      · rw [if_pos hx]
      · rw [if_neg hx]
        rfl
    | cons y ys ihG =>
      have hy : prefMatch prefs y = false := hG y (List.mem_cons_self _ _)
      simp only [insertCmp]
      by_cases hx : prefMatch prefs x = true
      · have hcmp : prefCmp prefs y x = 1 := by simp [prefCmp, hy, hx]
        rw [hcmp]
        norm_num
        rw [if_pos hx]
      · have hxf : prefMatch prefs x = false := by simpa using hx
        have hcmp : prefCmp prefs y x = 0 := by simp [prefCmp, hy, hxf]
        rw [hcmp]
        norm_num
        have hrec := ihG (fun z hz => hG z (List.mem_cons_of_mem _ hz))
        rw [hrec, if_neg hx, if_neg hx]
        try simp
  | cons y F ihF =>
    have hy : prefMatch prefs y = true := hF y (List.mem_cons_self _ _)
    simp only [List.cons_append, insertCmp, List.append_eq]
    have hcmp : ¬ 0 < prefCmp prefs y x := by
      by_cases hx : prefMatch prefs x = true <;> simp [prefCmp, hy, hx]
    rw [if_neg hcmp, ihF (fun z hz => hF z (List.mem_cons_of_mem _ hz))]
    by_cases hx : prefMatch prefs x = true
    · rw [if_pos hx, if_pos hx]
      try rfl
    · rw [if_neg hx, if_neg hx]
      try rfl

theorem sortCmp_prefCmp_partition (prefs : List String) (l : List Slot) :
    sortCmp (prefCmp prefs) l =
      l.filter (prefMatch prefs) ++ l.filter (fun s => !(prefMatch prefs s)) := by
  have key : ∀ (l F G : List Slot),
      (∀ y ∈ F, prefMatch prefs y = true) → (∀ y ∈ G, prefMatch prefs y = false) →
      l.foldl (fun acc x => insertCmp (prefCmp prefs) x acc) (F ++ G) =
        (F ++ l.filter (prefMatch prefs)) ++ (G ++ l.filter (fun s => !(prefMatch prefs s))) := by
    intro l
    induction l with
    | nil =>
      intro F G _ _
      simp
    | cons x xs ih =>
      intro F G hF hG
      rw [List.foldl_cons, insertCmp_prefCmp prefs x F G hF hG]
      by_cases hx : prefMatch prefs x = true
      · rw [if_pos hx]
        have hsplit : F ++ x :: G = (F ++ [x]) ++ G := by simp
        rw [hsplit, ih (F ++ [x]) G ?hF2 hG]
        case hF2 =>
          intro y hy
          rcases List.mem_append.mp hy with hy | hy
          · exact hF y hy
          · simp only [List.mem_singleton] at hy
            subst hy
            exact hx
        simp [List.filter_cons, hx]
      · rw [if_neg hx]
        have hxf : prefMatch prefs x = false := by simpa using hx
        rw [ih F (G ++ [x]) hF ?hG2]
        case hG2 =>
          intro y hy
          rcases List.mem_append.mp hy with hy | hy
          · exact hG y hy
          · simp only [List.mem_singleton] at hy
            subst hy
            exact hxf
        simp [List.filter_cons, hxf]
  have h0 := key l [] [] (by simp) (by simp)
  simpa [sortCmp] using h0

/-! ## Claim theorems: SlotFinder -/

/-- Claim C1: for every working window, every required duration D > 0 and
every list of busy intervals, every slot returned by `findAvailableSlots`
has length at least D and is disjoint from every busy interval of the
input list (slots and busy intervals being half-open). -/
theorem claim1_findAvailableSlots_sound (st et dm : Int) (evs : List BusyEvent)
    (prefs : List String) (hdm : 0 < dm) :
    ∀ s ∈ findAvailableSlots st et evs dm prefs,
      dm * msPerMin ≤ s.stopT - s.startT ∧
      ∀ ev ∈ evs, s.stopT ≤ ev.startT ∨ ev.endT ≤ s.startT := by
  intro s hs
  have hs' : s ∈ sweepSlots st et evs dm := by
    unfold findAvailableSlots at hs
    by_cases hp : 0 < prefs.length
    · rw [if_pos hp] at hs
      exact (mem_sortCmp _ _ _).mp hs
    · rw [if_neg hp] at hs
      exact hs
  have hshape := sweepSlots_shape st et dm evs s hs'
  exact ⟨by omega, sweepSlots_disjoint st et dm evs s hs'⟩

/-- Witness for C1 at the spec scenario: 2024-01-15, window 09:00-17:00
UTC, duration 60 minutes, busy 10:00-11:00 and 14:00-15:00; the first
emitted slot is 09:00-10:00 and it is disjoint from the 10:00-11:00 busy
interval. -/
theorem claim1_witness :
    (0 : Int) < 60 ∧
    (60 : Int) * msPerMin ≤
        (⟨1705309200000, 1705312800000, 60⟩ : Slot).stopT -
          (⟨1705309200000, 1705312800000, 60⟩ : Slot).startT ∧
    ((⟨1705309200000, 1705312800000, 60⟩ : Slot).stopT ≤
        (⟨1705312800000, 1705316400000⟩ : BusyEvent).startT ∨
      (⟨1705312800000, 1705316400000⟩ : BusyEvent).endT ≤
        (⟨1705309200000, 1705312800000, 60⟩ : Slot).startT) :=
  ⟨by norm_num,
   (claim1_findAvailableSlots_sound 1705309200000 1705338000000 60
      [⟨1705312800000, 1705316400000⟩, ⟨1705327200000, 1705330800000⟩] [] (by norm_num)
      ⟨1705309200000, 1705312800000, 60⟩ (by decide)).1,
   (claim1_findAvailableSlots_sound 1705309200000 1705338000000 60
      [⟨1705312800000, 1705316400000⟩, ⟨1705327200000, 1705330800000⟩] [] (by norm_num)
      ⟨1705309200000, 1705312800000, 60⟩ (by decide)).2
     ⟨1705312800000, 1705316400000⟩ (by decide)⟩

/-- Claim C10: every emitted slot has length exactly D — its end is its
start plus the requested duration and its `duration` field equals the
requested `durationMinutes` — so free gaps longer than D are truncated. -/
theorem claim10_slots_exact (st et dm : Int) (evs : List BusyEvent) (prefs : List String) :
    ∀ s ∈ findAvailableSlots st et evs dm prefs,
      s.stopT = s.startT + dm * msPerMin ∧ s.durMin = dm := by
  intro s hs
  have hs' : s ∈ sweepSlots st et evs dm := by
    unfold findAvailableSlots at hs
    by_cases hp : 0 < prefs.length
    · rw [if_pos hp] at hs
      exact (mem_sortCmp _ _ _).mp hs
    · rw [if_neg hp] at hs
      exact hs
  exact sweepSlots_shape st et dm evs s hs'

/-- Witness for C10 at the same scenario: the 09:00 slot of a 60-minute
request ends exactly 60 minutes after its start and reports duration 60. -/
theorem claim10_witness :
    (⟨1705309200000, 1705312800000, 60⟩ : Slot).stopT =
        (⟨1705309200000, 1705312800000, 60⟩ : Slot).startT + 60 * msPerMin ∧
    (⟨1705309200000, 1705312800000, 60⟩ : Slot).durMin = 60 :=
  claim10_slots_exact 1705309200000 1705338000000 60
    [⟨1705312800000, 1705316400000⟩, ⟨1705327200000, 1705330800000⟩] []
    ⟨1705309200000, 1705312800000, 60⟩ (by decide)

/-- Claim C8: with a nonempty preferred-times list, the returned list is
the stable partition of the swept slots — all slots whose start
time-of-day matches a preferred value first, then all others, each group
in sweep order. -/
theorem claim8_preferred_stable_partition (st et dm : Int) (evs : List BusyEvent)
    (prefs : List String) (hp : prefs ≠ []) :
    findAvailableSlots st et evs dm prefs =
      (sweepSlots st et evs dm).filter (prefMatch prefs) ++
        (sweepSlots st et evs dm).filter (fun s => !(prefMatch prefs s)) := by
  have hlen : 0 < prefs.length := List.length_pos_iff_ne_nil.mpr hp
  unfold findAvailableSlots
  rw [if_pos hlen]
  exact sortCmp_prefCmp_partition prefs _

/-- Witness for C8 at a concrete preferred-time list. -/
theorem claim8_witness :
    (["11:00"] : List String) ≠ [] ∧
    findAvailableSlots 1705309200000 1705338000000
        [⟨1705312800000, 1705316400000⟩, ⟨1705327200000, 1705330800000⟩] 60 ["11:00"] =
      (sweepSlots 1705309200000 1705338000000
          [⟨1705312800000, 1705316400000⟩, ⟨1705327200000, 1705330800000⟩] 60).filter
        (prefMatch ["11:00"]) ++
      (sweepSlots 1705309200000 1705338000000
          [⟨1705312800000, 1705316400000⟩, ⟨1705327200000, 1705330800000⟩] 60).filter
        (fun s => !(prefMatch ["11:00"] s)) :=
  ⟨by decide,
   claim8_preferred_stable_partition 1705309200000 1705338000000 60
     [⟨1705312800000, 1705316400000⟩, ⟨1705327200000, 1705330800000⟩] ["11:00"] (by decide)⟩

/-! ## Claim theorems: executor dispatch and error containment -/

/-- Claim C9: `executeFunctionCall` never propagates an exception — it
always returns a result object; a thrown error becomes a failure result
carrying the error message and the function name, a handler result is
returned as is, and a name outside the catalogue yields the
`Unknown function` failure result. -/
theorem claim9_executeFunctionCall_total (h : Handlers) (fc : FnCall) :
    (∀ e, dispatchRaw h fc = Except.error e →
        executeFunctionCall h fc = { success := false, error := some e, fnField := some fc.name })
    ∧ (∀ r, dispatchRaw h fc = Except.ok r → executeFunctionCall h fc = r)
    ∧ (fc.name ∉ toolCatalogue →
        executeFunctionCall h fc =
          { success := false, error := some ("Unknown function: " ++ fc.name),
            fnField := some fc.name }) := by
  refine ⟨?_, ?_, ?_⟩
  · intro e he
    unfold executeFunctionCall
    rw [he]
  · intro r hr
    unfold executeFunctionCall
    rw [hr]
  · intro hname
    have h1 : fc.name ≠ "create_calendar_event" := by
      intro h
      apply hname
      rw [h]
      decide
    have h2 : fc.name ≠ "get_calendar_events" := by
      intro h
      apply hname
      rw [h]
      decide
    have h3 : fc.name ≠ "update_calendar_event" := by
      intro h
      apply hname
      rw [h]
      decide
    have h4 : fc.name ≠ "delete_calendar_event" := by
      intro h
      apply hname
      rw [h]
      decide
    have h5 : fc.name ≠ "search_calendar_events" := by
      intro h
      apply hname
      rw [h]
      decide
    have h6 : fc.name ≠ "get_time_suggestions" := by
      intro h
      apply hname
      rw [h]
      decide
    simp [executeFunctionCall, dispatchRaw, beq_iff_eq, h1, h2, h3, h4, h5, h6]

/-- Witness for C9: a throwing delete handler, and an unknown name. -/
theorem claim9_witness :
    executeFunctionCall handlersBoom ⟨"delete_calendar_event", bag0⟩ =
        { success := false, error := some "boom", fnField := some "delete_calendar_event" } ∧
    executeFunctionCall handlersBoom ⟨"frobnicate", bag0⟩ =
        { success := false, error := some ("Unknown function: " ++ "frobnicate"),
          fnField := some "frobnicate" } :=
  ⟨(claim9_executeFunctionCall_total handlersBoom ⟨"delete_calendar_event", bag0⟩).1 "boom" rfl,
   (claim9_executeFunctionCall_total handlersBoom ⟨"frobnicate", bag0⟩).2.2 (by decide)⟩

/-- Claim C5 (code-bug exhibit): `get_time_suggestions` is one of the six
catalogued, dispatched tool functions, yet `validateFunctionCall` has no
schema for it and fails it with the `Unknown function` error — so the
validator does not accept the whole catalogue, contrary to the claim that
only kinds outside the catalogue fail with UnknownAction. -/
theorem claim5_validator_missing_suggest_schema :
    ∀ (dtOk emOk : String → Bool) (bag : ArgBag) (h : Handlers),
      validateFunctionCall dtOk emOk ⟨"get_time_suggestions", bag⟩ =
          Except.error "Unknown function: get_time_suggestions" ∧
      "get_time_suggestions" ∈ toolCatalogue ∧
      dispatchRaw h ⟨"get_time_suggestions", bag⟩ = h.suggestH bag := by
  intro dtOk emOk bag h
  exact ⟨rfl, by decide, rfl⟩

/-! ## Claim theorems: auth gate (MessageHandler) -/

/-- Claim C2: for every catalogued action kind and every user whose auth
status is not `authenticated`, the per-call loop yields the AuthRequired
failure result, the executor (hence the remote provider) is never invoked
for it (the outcome does not depend on the executor), and the batch is
processed element-wise, so sibling actions are unaffected. -/
theorem claim2_auth_gate (dtOk emOk : String → Bool)
    (exec exec2 : String → ArgBag → ExecResult) (u : WaUser) (fc : FnCall)
    (calls : List FnCall) (hcat : fc.name ∈ toolCatalogue)
    (hauth : u.authStatus ≠ "authenticated") :
    processOneCall dtOk emOk exec u fc =
        CallOutcome.authRequired fc.name
          "Authentication required. Please use /auth to connect your Google Calendar."
    ∧ processOneCall dtOk emOk exec u fc = processOneCall dtOk emOk exec2 u fc
    ∧ processFunctionCalls dtOk emOk exec u calls = calls.map (processOneCall dtOk emOk exec u) := by
  have hreq : requiresAuth fc.name = true := by
    simp only [toolCatalogue, List.mem_cons, List.mem_singleton, List.not_mem_nil, or_false] at hcat
    rcases hcat with h | h | h | h | h | h <;> rw [h] <;> decide
  have hne : (u.authStatus == "authenticated") = false := by
    simp [hauth]
  have hgate : (requiresAuth fc.name && !(u.authStatus == "authenticated")) = true := by
    rw [hreq, hne]
    rfl
  refine ⟨?_, ?_, rfl⟩
  · unfold processOneCall
    rw [hgate]
    rfl
  · unfold processOneCall
    rw [hgate]
    rfl

/-- Witness for C2: a pending user, a delete call, two different executors. -/
theorem claim2_witness :
    ("delete_calendar_event" ∈ toolCatalogue) ∧ ("pending" ≠ "authenticated") ∧
    processOneCall (fun _ => true) (fun _ => true) (fun _ _ => okResult) ⟨7, "pending"⟩
        ⟨"delete_calendar_event", bag0⟩ =
      CallOutcome.authRequired "delete_calendar_event"
        "Authentication required. Please use /auth to connect your Google Calendar." ∧
    processOneCall (fun _ => true) (fun _ => true) (fun _ _ => okResult) ⟨7, "pending"⟩
        ⟨"delete_calendar_event", bag0⟩ =
      processOneCall (fun _ => true) (fun _ => true)
        (fun _ _ => { success := false, error := some "other" }) ⟨7, "pending"⟩
        ⟨"delete_calendar_event", bag0⟩ :=
  ⟨by decide, by decide,
   (claim2_auth_gate (fun _ => true) (fun _ => true) (fun _ _ => okResult)
      (fun _ _ => { success := false, error := some "other" }) ⟨7, "pending"⟩
      ⟨"delete_calendar_event", bag0⟩ [] (by decide) (by decide)).1,
   (claim2_auth_gate (fun _ => true) (fun _ => true) (fun _ _ => okResult)
      (fun _ _ => { success := false, error := some "other" }) ⟨7, "pending"⟩
      ⟨"delete_calendar_event", bag0⟩ [] (by decide) (by decide)).2.1⟩

/-! ## Claim theorems: `createCalendarEvent` date gate -/

/-- Claim C3: `start == end`, `start > end` and `start < now` are each
rejected before any remote call (the first two with the
start-before-end error, a strictly-past start otherwise with the
past-date error, and never reaching the remote-create decision), while
`start < end` with `start >= now` proceeds to the remote create call with
the assembled payload. -/
theorem claim3_create_gate (a : CreateArgs) (now : Int) :
    (a.startTime = a.endTime →
        createCalendarEvent a now = CreateDecision.rejected "Start time must be before end time")
    ∧ (a.endTime < a.startTime →
        createCalendarEvent a now = CreateDecision.rejected "Start time must be before end time")
    ∧ (a.startTime < now → ∀ ed, createCalendarEvent a now ≠ CreateDecision.remoteCreate ed)
    ∧ (a.startTime < a.endTime → a.startTime < now →
        createCalendarEvent a now = CreateDecision.rejected "Cannot create events in the past")
    ∧ (a.startTime < a.endTime → now ≤ a.startTime →
        createCalendarEvent a now = CreateDecision.remoteCreate (mkEventData a)) := by
  have hstart : (mkEventData a).startTime = a.startTime := rfl
  have hstop : (mkEventData a).endTime = a.endTime := rfl
  refine ⟨?_, ?_, ?_, ?_, ?_⟩
  · intro h
    unfold createCalendarEvent
    rw [if_pos (by omega)]
  · intro h
    unfold createCalendarEvent
    rw [if_pos (by omega)]
  · intro h ed
    unfold createCalendarEvent
    by_cases h1 : (mkEventData a).endTime ≤ (mkEventData a).startTime
    · rw [if_pos h1]
      intro hcon
      exact CreateDecision.noConfusion hcon
    · rw [if_neg h1, if_pos (by omega)]
      intro hcon
      exact CreateDecision.noConfusion hcon
  · intro h1 h2
    unfold createCalendarEvent
    rw [if_neg (by omega), if_pos (by omega)]
  · intro h1 h2
    unfold createCalendarEvent
    rw [if_neg (by omega), if_neg (by omega)]

/-- Witness for C3: equal endpoints, reversed endpoints, a past start and a
valid request, all at `now = 1000`. -/
theorem claim3_witness :
    createCalendarEvent { title := "a", startTime := 5000, endTime := 5000 } 1000 =
        CreateDecision.rejected "Start time must be before end time" ∧
    createCalendarEvent { title := "a", startTime := 6000, endTime := 5000 } 1000 =
        CreateDecision.rejected "Start time must be before end time" ∧
    createCalendarEvent { title := "a", startTime := 500, endTime := 5000 } 1000 =
        CreateDecision.rejected "Cannot create events in the past" ∧
    createCalendarEvent { title := "a", startTime := 2000, endTime := 5000 } 1000 =
        CreateDecision.remoteCreate
          (mkEventData { title := "a", startTime := 2000, endTime := 5000 }) :=
  ⟨(claim3_create_gate { title := "a", startTime := 5000, endTime := 5000 } 1000).1 rfl,
   (claim3_create_gate { title := "a", startTime := 6000, endTime := 5000 } 1000).2.1 (by norm_num),
   (claim3_create_gate { title := "a", startTime := 500, endTime := 5000 } 1000).2.2.2.1
     (by norm_num) (by norm_num),
   (claim3_create_gate { title := "a", startTime := 2000, endTime := 5000 } 1000).2.2.2.2
     (by norm_num) (by norm_num)⟩

/-! ## Claim theorems: `updateCalendarEvent` partial-field frame -/

/-- Claim C6: only the fields present in an update request are modified in
the payload sent to the remote provider and in the matching local mirror
row — every absent field keeps its previous value, the mirror's
description, location, attendees and reminder are never touched, and rows
with a different key are untouched; if both datetimes are supplied with
`start >= end` the request is rejected before any remote call (no state
is produced at all). -/
theorem claim6_update_frame (a : UpdateArgs) (uid : Int) (ex : RemoteEvent)
    (mirror : List MirrorRow) :
    (∀ s e, a.startDateTime = some s → a.endDateTime = some e → e ≤ s →
        updateCalendarEvent a uid ex mirror =
          UpdateDecision.rejected "Start time must be before end time")
    ∧ (∀ rem mir, updateCalendarEvent a uid ex mirror = UpdateDecision.performed rem mir →
        ((a.title = none ∨ a.title = some "") → rem.summary = ex.summary)
        ∧ (a.startDateTime = none → rem.startDT = ex.startDT)
        ∧ (a.endDateTime = none → rem.endDT = ex.endDT)
        ∧ (a.location = none → rem.location = ex.location)
        ∧ rem.description = ex.description
        ∧ rem.attendees = ex.attendees
        ∧ (∀ t, a.title = some t → t ≠ "" → rem.summary = t)
        ∧ (∀ s, a.startDateTime = some s → rem.startDT = s)
        ∧ (∀ e, a.endDateTime = some e → rem.endDT = e)
        ∧ mir = mirrorAfterUpdate uid a.eventId (mkUpdates a) mirror)
    ∧ (∀ row : MirrorRow, ¬(row.userId = uid ∧ row.googleEventId = a.eventId) →
        applyMirrorUpdate uid a.eventId (mkUpdates a) row = row)
    ∧ (∀ row : MirrorRow,
        (applyMirrorUpdate uid a.eventId (mkUpdates a) row).description = row.description
        ∧ (applyMirrorUpdate uid a.eventId (mkUpdates a) row).location = row.location
        ∧ (applyMirrorUpdate uid a.eventId (mkUpdates a) row).attendees = row.attendees
        ∧ (applyMirrorUpdate uid a.eventId (mkUpdates a) row).reminderMinutes = row.reminderMinutes
        ∧ (applyMirrorUpdate uid a.eventId (mkUpdates a) row).userId = row.userId
        ∧ (applyMirrorUpdate uid a.eventId (mkUpdates a) row).googleEventId = row.googleEventId
        ∧ ((a.title = none ∨ a.title = some "") →
            (applyMirrorUpdate uid a.eventId (mkUpdates a) row).title = row.title)
        ∧ (a.startDateTime = none →
            (applyMirrorUpdate uid a.eventId (mkUpdates a) row).startT = row.startT)
        ∧ (a.endDateTime = none →
            (applyMirrorUpdate uid a.eventId (mkUpdates a) row).endT = row.endT)) := by
  refine ⟨?_, ?_, ?_, ?_⟩
  · intro s e hs he hle
    have hb : startNotBeforeEnd (mkUpdates a) = true := by
      simp [startNotBeforeEnd, mkUpdates, hs, he, hle]
    unfold updateCalendarEvent
    rw [if_pos hb]
  · intro rem mir heq
    by_cases hb : startNotBeforeEnd (mkUpdates a) = true
    · unfold updateCalendarEvent at heq
      rw [if_pos hb] at heq
      exact absurd heq (by simp)
    · unfold updateCalendarEvent at heq
      rw [if_neg hb] at heq
      simp only [UpdateDecision.performed.injEq] at heq
      obtain ⟨hrem, hmir⟩ := heq
      subst hrem
      subst hmir
      refine ⟨?_, ?_, ?_, ?_, rfl, rfl, ?_, ?_, ?_, rfl⟩
      · intro ht
        rcases ht with ht | ht <;> simp [applyRemoteUpdates, mkUpdates, ht]
      · intro h
        simp [applyRemoteUpdates, mkUpdates, h]
      · intro h
        simp [applyRemoteUpdates, mkUpdates, h]
      · intro h
        simp [applyRemoteUpdates, mkUpdates, h]
      · intro t ht ht2
        simp [applyRemoteUpdates, mkUpdates, ht, ht2]
      · intro s hs
        simp [applyRemoteUpdates, mkUpdates, hs]
      · intro e he
        simp [applyRemoteUpdates, mkUpdates, he]
  · intro row hrow
    have hcond : ¬ ((row.userId == uid && row.googleEventId == a.eventId) = true) := by
      simp only [Bool.and_eq_true, beq_iff_eq]
      exact hrow
    unfold applyMirrorUpdate
    rw [if_neg hcond]
  · intro row
    by_cases hcond : (row.userId == uid && row.googleEventId == a.eventId) = true
    · unfold applyMirrorUpdate
      rw [if_pos hcond]
      refine ⟨rfl, rfl, rfl, rfl, rfl, rfl, ?_, ?_, ?_⟩
      · intro ht
        rcases ht with ht | ht <;> simp [mkUpdates, ht]
      · intro h
        simp [mkUpdates, h]
      · intro h
        simp [mkUpdates, h]
    · unfold applyMirrorUpdate
      rw [if_neg hcond]
      exact ⟨rfl, rfl, rfl, rfl, rfl, rfl, fun _ => rfl, fun _ => rfl, fun _ => rfl⟩

/-- Witness for C6: a reversed-dates request is rejected; a partial request
(new title and new start only, on event E1) changes exactly those fields
and leaves end, location, description, attendees and the untouched mirror
columns unchanged. -/
theorem claim6_witness :
    updateCalendarEvent updArgsBad 7 ex0 [row0] =
        UpdateDecision.rejected "Start time must be before end time" ∧
    (applyRemoteUpdates ex0 (mkUpdates updArgsPart)).endDT = ex0.endDT ∧
    (applyRemoteUpdates ex0 (mkUpdates updArgsPart)).location = ex0.location ∧
    (applyRemoteUpdates ex0 (mkUpdates updArgsPart)).description = ex0.description ∧
    (applyRemoteUpdates ex0 (mkUpdates updArgsPart)).attendees = ex0.attendees ∧
    (applyRemoteUpdates ex0 (mkUpdates updArgsPart)).summary = "New" ∧
    (applyRemoteUpdates ex0 (mkUpdates updArgsPart)).startDT = 100 ∧
    (applyMirrorUpdate 7 updArgsPart.eventId (mkUpdates updArgsPart) row0).location = row0.location :=
  ⟨(claim6_update_frame updArgsBad 7 ex0 [row0]).1 100 50 rfl rfl (by norm_num),
   ((claim6_update_frame updArgsPart 7 ex0 [row0]).2.1
      (applyRemoteUpdates ex0 (mkUpdates updArgsPart))
      (mirrorAfterUpdate 7 updArgsPart.eventId (mkUpdates updArgsPart) [row0]) rfl).2.2.1 rfl,
   ((claim6_update_frame updArgsPart 7 ex0 [row0]).2.1
      (applyRemoteUpdates ex0 (mkUpdates updArgsPart))
      (mirrorAfterUpdate 7 updArgsPart.eventId (mkUpdates updArgsPart) [row0]) rfl).2.2.2.1 rfl,
   ((claim6_update_frame updArgsPart 7 ex0 [row0]).2.1
      (applyRemoteUpdates ex0 (mkUpdates updArgsPart))
      (mirrorAfterUpdate 7 updArgsPart.eventId (mkUpdates updArgsPart) [row0]) rfl).2.2.2.2.1,
   ((claim6_update_frame updArgsPart 7 ex0 [row0]).2.1
      (applyRemoteUpdates ex0 (mkUpdates updArgsPart))
      (mirrorAfterUpdate 7 updArgsPart.eventId (mkUpdates updArgsPart) [row0]) rfl).2.2.2.2.2.1,
   ((claim6_update_frame updArgsPart 7 ex0 [row0]).2.1
      (applyRemoteUpdates ex0 (mkUpdates updArgsPart))
      (mirrorAfterUpdate 7 updArgsPart.eventId (mkUpdates updArgsPart) [row0]) rfl).2.2.2.2.2.2.1
     "New" rfl (by decide),
   ((claim6_update_frame updArgsPart 7 ex0 [row0]).2.1
      (applyRemoteUpdates ex0 (mkUpdates updArgsPart))
      (mirrorAfterUpdate 7 updArgsPart.eventId (mkUpdates updArgsPart) [row0]) rfl).2.2.2.2.2.2.2.1
     100 rfl,
   ((claim6_update_frame updArgsPart 7 ex0 [row0]).2.2.2 row0).2.1⟩

/-! ## Claim theorems: `deleteCalendarEvent` resolved by title search -/

/-- Claim C4: resolving a delete request by title search with N
case-insensitive substring matches: N = 0 gives the not-found failure with
no deletion; N = 1 deletes remotely and removes the matching mirror rows;
N > 1 deletes nothing and returns exactly the N candidates (id, title,
start). -/
theorem claim4_delete_by_title (a : DelArgs) (uid : Int) (fetched : List FetchedEvent)
    (mirror : List MirrorRow) (st : String)
    (hid : truthyStr a.eventId = false) (hst : a.searchTitle = some st) (hne : st ≠ "") :
    (findEventsByTitle fetched st = [] →
        deleteCalendarEvent a uid fetched mirror =
          ({ success := false,
             error := some ("No events found with title containing \"" ++ st ++ "\""),
             fnField := some "delete_calendar_event" }, mirror, none))
    ∧ (∀ e, findEventsByTitle fetched st = [e] → e.id ≠ "" →
        deleteCalendarEvent a uid fetched mirror =
          ({ success := true, eventIdField := some e.id },
            mirrorDelete uid e.id mirror, some e.id)
        ∧ ∀ r ∈ mirrorDelete uid e.id mirror, ¬(r.userId = uid ∧ r.googleEventId = e.id))
    ∧ (1 < (findEventsByTitle fetched st).length →
        deleteCalendarEvent a uid fetched mirror =
          ({ success := false,
             error := some ("Multiple events found with \"" ++ st ++ "\". Please be more specific."),
             eventsField := some ((findEventsByTitle fetched st).map fun e => ⟨e.id, e.title, e.startS⟩),
             fnField := some "delete_calendar_event" }, mirror, none)
        ∧ ((findEventsByTitle fetched st).map
            fun e => (⟨e.id, e.title, e.startS⟩ : Candidate)).length
              = (findEventsByTitle fetched st).length) := by
  have hguard : (!(truthyStr a.eventId) && truthyStr a.searchTitle) = true := by
    rw [hid, hst]
    simp [truthyStr, hne]
  refine ⟨?_, ?_, ?_⟩
  · intro hm
    have hphase : delSearchPhase a fetched =
        Except.error { success := false,
                       error := some ("No events found with title containing \"" ++ st ++ "\""),
                       fnField := some "delete_calendar_event" } := by
      unfold delSearchPhase
      rw [if_pos hguard, hst]
      simp [hm]
    unfold deleteCalendarEvent
    rw [hphase]
  · intro e hm hene
    have hphase : delSearchPhase a fetched = Except.ok (some e.id) := by
      unfold delSearchPhase
      rw [if_pos hguard, hst]
      simp [hm]
    constructor
    · unfold deleteCalendarEvent
      rw [hphase]
      have hidne : (e.id == "") = false := by simp [hene]
      simp [hidne]
    · intro r hr
      unfold mirrorDelete at hr
      rw [List.mem_filter] at hr
      obtain ⟨_, hcond⟩ := hr
      simp only [Bool.not_eq_true', Bool.and_eq_true, beq_iff_eq] at hcond
      intro hcon
      rw [Bool.and_eq_false_iff] at hcond
      rcases hcond with h | h
      · exact absurd hcon.1 (by simpa using h)
      · exact absurd hcon.2 (by simpa using h)
  · intro hlen
    have h0 : ¬ ((findEventsByTitle fetched st).length = 0) := by omega
    have hphase : delSearchPhase a fetched =
        Except.error { success := false,
                       error := some ("Multiple events found with \"" ++ st ++ "\". Please be more specific."),
                       eventsField := some ((findEventsByTitle fetched st).map fun e => ⟨e.id, e.title, e.startS⟩),
                       fnField := some "delete_calendar_event" } := by
      unfold delSearchPhase
      rw [if_pos hguard, hst]
      simp [h0, hlen]
    constructor
    · unfold deleteCalendarEvent
      rw [hphase]
    · simp

/-- Witness for C4: search "team" against zero, one and two fetched
events. -/
theorem claim4_witness :
    (truthyStr aDel.eventId = false ∧ aDel.searchTitle = some "team" ∧ "team" ≠ "") ∧
    deleteCalendarEvent aDel 7 [] [rowTeam] =
      ({ success := false,
         error := some ("No events found with title containing \"" ++ "team" ++ "\""),
         fnField := some "delete_calendar_event" }, [rowTeam], none) ∧
    deleteCalendarEvent aDel 7 [fe1] [rowTeam] =
      ({ success := true, eventIdField := some fe1.id },
        mirrorDelete 7 fe1.id [rowTeam], some fe1.id) ∧
    deleteCalendarEvent aDel 7 [fe1, fe2] [rowTeam] =
      ({ success := false,
         error := some ("Multiple events found with \"" ++ "team" ++ "\". Please be more specific."),
         eventsField := some ((findEventsByTitle [fe1, fe2] "team").map
           fun e => ⟨e.id, e.title, e.startS⟩),
         fnField := some "delete_calendar_event" }, [rowTeam], none) :=
  ⟨⟨rfl, rfl, by decide⟩,
   (claim4_delete_by_title aDel 7 [] [rowTeam] "team" rfl rfl (by decide)).1 rfl,
   ((claim4_delete_by_title aDel 7 [fe1] [rowTeam] "team" rfl rfl (by decide)).2.1 fe1
     (by decide) (by decide)).1,
   ((claim4_delete_by_title aDel 7 [fe1, fe2] [rowTeam] "team" rfl rfl (by decide)).2.2
     (by decide)).1⟩

/-! ## Claim theorems: session expiry -/

/-- Sanity check of the date rendering: the ISO string written into
`expires_at` for a session expiring at 2024-01-16T10:00:00Z. -/
theorem toISOString_sample : toISOString 1705399200000 = "2024-01-16T10:00:00.000Z" := by decide

/-- Sanity check of the `datetime('now')` rendering at 2024-01-16 10:01:00. -/
theorem sqliteDatetimeNow_sample : sqliteDatetimeNow 1705399260000 = "2024-01-16 10:01:00" := by
  decide

/-- `updateSessionActivity` touches only `last_activity`: every stored row
keeps its id, user, phone, status, creation time and expiry. -/
theorem updateSessionActivity_frame (store : List SessionRow) (sid : String) (now : Int) :
    ∀ s ∈ store, ∃ s2 ∈ updateSessionActivity store sid now,
      s2.id = s.id ∧ s2.userId = s.userId ∧ s2.phoneNumber = s.phoneNumber ∧
      s2.status = s.status ∧ s2.createdAt = s.createdAt ∧ s2.expiresAt = s.expiresAt := by
  intro s hs
  refine ⟨if s.id == sid then { s with lastActivity := sqliteDatetimeNow now } else s, ?_, ?_⟩
  · unfold updateSessionActivity
    exact List.mem_map_of_mem _ hs
  · by_cases h : (s.id == sid) = true <;> simp [h]

/-- Claim C7 (code-bug exhibit): a session created at
T = 2024-01-15T10:00:00Z stores `expires_at = "2024-01-16T10:00:00.000Z"`,
but `getActiveSession` compares that ISO TEXT byte-wise against
`datetime('now')` (`"2024-01-16 10:01:00"`), and since the byte `T` sorts
after the space, the session is still reported ACTIVE at T+24h01m
(activity at T+23h59m only changed `last_activity`), although
t > T + 24h — the claim (and the intended fixed 24h TTL) says it must be
reported expired. -/
theorem claim7_session_reported_active_past_ttl :
    (1705312800000 : Int) + 24 * 60 * 60 * 1000 < 1705399260000 ∧
    (getActiveSession "15551234567@c.us" 1705399260000
        (updateSessionActivity [mkSessionRow "s-1" 1 "15551234567@c.us" 1705312800000]
          "s-1" 1705399140000)).isSome = true ∧
    updateSessionActivity [mkSessionRow "s-1" 1 "15551234567@c.us" 1705312800000]
        "s-1" 1705399140000 =
      [{ mkSessionRow "s-1" 1 "15551234567@c.us" 1705312800000 with
          lastActivity := sqliteDatetimeNow 1705399140000 }] := by
  refine ⟨by decide, by decide, by decide⟩
